import Mathlib

/-!
Shallow embedding of the task-tracking backend (`src/backend/routes.py`,
`src/backend/models.py`): the `Task` data model, the cache-aside read path,
and the CRUD / batch / stats handlers registered by `register_routes`.

Timestamps are modelled as abstract instants (`Nat`); each request is given
a single current instant `now`.  ISO-8601 datetime parsing
(`datetime.datetime.fromisoformat`) is modelled as an uninterpreted
parameter `parseIso : String → Option Instant` passed to the handlers that
use it, since the handlers are parametric in the parser.  Python string
operations used by the handlers (`strip`, `lower`, `replace("Z","+00:00")`,
substring containment for `ilike`) are embedded as character-list functions.

The Redis client is modelled by a `Cache` state carrying a `configured`
flag (`hasattr(app, "redis_client") and app.redis_client`), a `healthy`
flag (whether calls raise), and the current key/value/TTL entries.  Every
cache operation is a no-op (or a caught exception) when the cache is not
configured or not healthy, mirroring the try/except blocks in the source.
-/

namespace TaskForge

/-- Abstract time instants standing in for `datetime.datetime` values. -/
abbrev Instant := Nat

/-- Python `str.strip` whitespace test (space, tab, newline, carriage return). -/
def pySpace (c : Char) : Bool :=
  c == ' ' || c == '\t' || c == '\n' || c == '\r'

/-- Python `str.strip`: remove leading and trailing whitespace. -/
def pyStrip (s : String) : String :=
  String.mk (((s.data.dropWhile pySpace).reverse.dropWhile pySpace).reverse)

/-- Python `str.lower`, character by character. -/
def pyLower (s : String) : String := String.mk (s.data.map Char.toLower)

/-- Replace every occurrence of the character `Z` by the six characters
of `+00:00`, on character lists.  This is exactly what
`s.replace("Z", "+00:00")` does in the source (Python `str.replace`
replaces all occurrences; the pattern is the single character `Z`). -/
def replaceZL : List Char → List Char
  | [] => []
  | c :: cs =>
    if c == 'Z' then '+' :: '0' :: '0' :: ':' :: '0' :: '0' :: replaceZL cs
    else c :: replaceZL cs

/-- The source expression `s.replace("Z", "+00:00")`. -/
def replaceZ (s : String) : String := String.mk (replaceZL s.data)

/-- Does the first list start with the second? -/
def startsL : List Char → List Char → Bool
  | _, [] => true
  | [], _ :: _ => false
  | c :: cs, p :: ps => c == p && startsL cs ps

/-- Does the list contain `pat` as a contiguous sublist? -/
def containsSub (pat : List Char) : List Char → Bool
  | [] => startsL [] pat
  | c :: cs => startsL (c :: cs) pat || containsSub pat cs

/-- Key namespace test: does the string start with the given head? -/
def strStarts (s head : String) : Bool := startsL s.data head.data

/-- Case-insensitive substring match, modelling
`Task.title.ilike(f"%{search}%")`. -/
def ilikeMatch (title search : String) : Bool :=
  containsSub (pyLower search).data (pyLower title).data

/-- The `Task` row (`models.py` / the `Task` model in the app module).
`description` defaults to the empty string on every creation path, so it
is kept as a plain `String`. -/
structure Task where
  id : Nat
  title : String
  description : String
  completed : Bool
  priority : Int
  due_date : Option Instant
  created_at : Instant
  updated_at : Instant
  completed_at : Option Instant
deriving Repr, DecidableEq

/-- The JSON wire representation produced by `Task.to_dict`. -/
structure TaskDict where
  id : Nat
  title : String
  description : String
  completed : Bool
  priority : Int
  due_date : Option Instant
  created_at : Option Instant
  updated_at : Option Instant
  completed_at : Option Instant
deriving Repr, DecidableEq

/-- `Task.to_dict`: serialize a row for the wire / the cache.
`created_at` and `updated_at` are non-null on every row, so they always
serialize to `some`. -/
def Task.to_dict (t : Task) : TaskDict :=
  { id := t.id
    title := t.title
    description := t.description
    completed := t.completed
    priority := t.priority
    due_date := t.due_date
    created_at := some t.created_at
    updated_at := some t.updated_at
    completed_at := t.completed_at }

/-- The persistent store: rows plus the next autoincrement id. -/
structure Store where
  tasks : List Task
  next_id : Nat
deriving Repr, DecidableEq

/-- `Task.query.get(task_id)`. -/
def Store.findTask (s : Store) (i : Nat) : Option Task :=
  s.tasks.find? (fun t => t.id == i)

/-- A cached JSON value: either a single task dict (under a `task:{id}`
key) or a serialized list of dicts (under a `tasks:{query}` key). -/
inductive CacheVal where
  | one (d : TaskDict)
  | many (ds : List TaskDict)
deriving Repr, DecidableEq

/-- One Redis entry: key, value, and the TTL in seconds it was set with. -/
structure CacheEntry where
  key : String
  value : CacheVal
  ttl : Nat
deriving Repr, DecidableEq

/-- The Redis client state.  `configured` models
`hasattr(app, "redis_client") and app.redis_client`; `healthy` models
whether client calls succeed (when false every call raises and the
handlers catch and log). -/
structure Cache where
  configured : Bool
  healthy : Bool
  entries : List CacheEntry
deriving Repr, DecidableEq

/-- `redis_client.get(key)` as observed by the handlers: absent client or
a raised exception both behave as a miss (the exception is caught). -/
def Cache.lookup (c : Cache) (k : String) : Option CacheVal :=
  if c.configured && c.healthy then
    (c.entries.find? (fun e => e.key == k)).map (fun e => e.value)
  else none

/-- `redis_client.setex(key, ttl, value)`: write-through when the client
is configured and the call succeeds, otherwise a caught no-op. -/
def Cache.set (c : Cache) (k : String) (ttl : Nat) (v : CacheVal) : Cache :=
  if c.configured && c.healthy then
    { c with entries := ⟨k, v, ttl⟩ :: c.entries.filter (fun e => !(e.key == k)) }
  else c

/-- `redis_client.delete(key)` for a single exact key. -/
def Cache.deleteKey (c : Cache) (k : String) : Cache :=
  if c.configured && c.healthy then
    { c with entries := c.entries.filter (fun e => !(e.key == k)) }
  else c

/-- `for key in redis_client.scan_iter("tasks:*"): redis_client.delete(key)`:
remove every key in the list-cache namespace. -/
def Cache.invalidateLists (c : Cache) : Cache :=
  if c.configured && c.healthy then
    { c with entries := c.entries.filter (fun e => !(strStarts e.key "tasks:")) }
  else c

/-- Result of `GET /api/tasks/{id}`.  `dbRead` instruments whether the
handler reached the `Task.query.get` call (false on a cache hit). -/
structure GetTaskOut where
  status : Nat
  body : Option CacheVal
  cache : Cache
  dbRead : Bool
deriving Repr, DecidableEq

/-- `get_task` handler (`routes.py`): cache-aside read of a single task.
Cache hit returns the cached JSON without touching the store; miss or
cache failure falls through to the store, and a store hit populates the
cache with a 60-second TTL; a store miss is a 404. -/
def get_task (c : Cache) (s : Store) (task_id : Nat) : GetTaskOut :=
  let key := "task:" ++ toString task_id
  match c.lookup key with
  | some v => ⟨200, some v, c, false⟩
  | none =>
    match s.findTask task_id with
    | some t => ⟨200, some (.one t.to_dict), c.set key 60 (.one t.to_dict), true⟩
    | none => ⟨404, none, c, true⟩

/-- The JSON body accepted by `POST /api/tasks`.  `none` fields model
absent keys. -/
structure CreateData where
  title : Option String
  description : Option String
  completed : Option Bool
  priority : Option Int
  due_date : Option String
deriving Repr, DecidableEq

/-- The Python truthiness test `if not data` on the request body: an
empty JSON object has every key absent. -/
def CreateData.isEmptyData (d : CreateData) : Bool :=
  d.title.isNone && d.description.isNone && d.completed.isNone
    && d.priority.isNone && d.due_date.isNone

/-- Result of `POST /api/tasks`. -/
structure CreateOut where
  status : Nat
  body : Option TaskDict
  store : Store
  cache : Cache
  logs : List String
deriving Repr, DecidableEq

/-- `create_task` handler (`routes.py`).  Requires a non-blank trimmed
title; applies defaults; leniently parses `due_date` after rewriting the
`Z` zone suffix to `+00:00`, logging a warning and leaving `due_date`
unset when parsing fails; commits the row; deletes every `tasks:*`
list-cache key; returns 201. -/
def create_task (parseIso : String → Option Instant) (c : Cache) (s : Store)
    (d : CreateData) (now : Instant) : CreateOut :=
  if d.isEmptyData then ⟨400, none, s, c, ["No JSON data provided"]⟩
  else
    match d.title with
    | none => ⟨400, none, s, c, ["Task creation failed: missing title"]⟩
    | some rawTitle =>
      if pyStrip rawTitle = "" then
        ⟨400, none, s, c, ["Task creation failed: missing title"]⟩
      else
        let base : Task :=
          { id := s.next_id
            title := pyStrip rawTitle
            description := pyStrip (d.description.getD "")
            completed := d.completed.getD false
            priority := d.priority.getD 1
            due_date := none
            created_at := now
            updated_at := now
            completed_at := none }
        let parsed : Option Instant × List String :=
          match d.due_date with
          | some ds =>
            if ds = "" then (none, [])
            else
              match parseIso (replaceZ ds) with
              | some inst => (some inst, [])
              | none => (none, ["Invalid due_date format"])
          | none => (none, [])
        let task : Task := { base with due_date := parsed.1 }
        let s2 : Store := { tasks := s.tasks ++ [task], next_id := s.next_id + 1 }
        ⟨201, some task.to_dict, s2, c.invalidateLists, parsed.2⟩

/-- The JSON body accepted by `PUT /api/tasks/{id}`.  The outer `Option`
models key presence; for `due_date` the inner `Option` distinguishes a
non-null string from an explicit JSON null. -/
structure UpdateData where
  title : Option String
  description : Option String
  completed : Option Bool
  priority : Option Int
  due_date : Option (Option String)
deriving Repr, DecidableEq

/-- Python truthiness `if not data` for the update body. -/
def UpdateData.isEmptyData (d : UpdateData) : Bool :=
  d.title.isNone && d.description.isNone && d.completed.isNone
    && d.priority.isNone && d.due_date.isNone

/-- Field application of `update_task`, in source order: title,
description, completed (with the differs-from-current transition guard on
`completed_at`), priority, due_date (lenient parse; unparsable or null or
empty input clears it).  `updated_at` is refreshed by the commit. -/
def applyUpdate (parseIso : String → Option Instant) (t0 : Task)
    (d : UpdateData) (now : Instant) : Task :=
  let t1 :=
    match d.title with
    | some v => { t0 with title := pyStrip v }
    | none => t0
  let t2 :=
    match d.description with
    | some v => { t1 with description := pyStrip v }
    | none => t1
  let t3 :=
    match d.completed with
    | some b =>
      if b != t2.completed then
        { t2 with completed := b, completed_at := if b then some now else none }
      else t2
    | none => t2
  let t4 :=
    match d.priority with
    | some p => { t3 with priority := p }
    | none => t3
  let t5 :=
    match d.due_date with
    | some v =>
      match v with
      | some ds =>
        if ds = "" then { t4 with due_date := none }
        else
          match parseIso (replaceZ ds) with
          | some inst => { t4 with due_date := some inst }
          | none => { t4 with due_date := none }
      | none => { t4 with due_date := none }
    | none => t4
  { t5 with updated_at := now }

/-- Result of `PUT /api/tasks/{id}`. -/
structure UpdateOut where
  status : Nat
  body : Option TaskDict
  store : Store
  cache : Cache
deriving Repr, DecidableEq

/-- `update_task` handler (`routes.py`): 404 when the id does not
resolve, 400 on an empty body, otherwise partial patch, commit, and
invalidation of the single-item key and all list-cache keys. -/
def update_task (parseIso : String → Option Instant) (c : Cache) (s : Store)
    (task_id : Nat) (d : UpdateData) (now : Instant) : UpdateOut :=
  match s.findTask task_id with
  | none => ⟨404, none, s, c⟩
  | some t =>
    if d.isEmptyData then ⟨400, none, s, c⟩
    else
      let t2 := applyUpdate parseIso t d now
      let s2 : Store :=
        { s with tasks := s.tasks.map (fun u => if u.id == task_id then t2 else u) }
      let c2 := (c.deleteKey ("task:" ++ toString task_id)).invalidateLists
      ⟨200, some t2.to_dict, s2, c2⟩

/-- Query parameters of `GET /api/tasks`.  `raw` is the raw query string
interpolated into the list-cache key. -/
structure ListQuery where
  completed : Option String
  priority : Option Int
  search : Option String
  raw : String
deriving Repr, DecidableEq

/-- Insert into a list already sorted by `created_at` descending. -/
def insertDesc (t : Task) : List Task → List Task
  | [] => [t]
  | x :: xs =>
    if x.created_at < t.created_at then t :: x :: xs else x :: insertDesc t xs

/-- `query.order_by(Task.created_at.desc())`. -/
def sortByCreatedDesc : List Task → List Task
  | [] => []
  | x :: xs => insertDesc x (sortByCreatedDesc xs)

/-- The store-side query of `get_tasks`: conjunctive filters (completed
equality on `completed.lower() == "true"`, priority equality skipped for
a falsy 0, case-insensitive substring `ilike` on the title), then the
descending `created_at` ordering. -/
def listResult (s : Store) (q : ListQuery) : List Task :=
  let ts := s.tasks
  let ts :=
    match q.completed with
    | some cs => ts.filter (fun t => t.completed == (pyLower cs == "true"))
    | none => ts
  let ts :=
    match q.priority with
    | some p => if p == 0 then ts else ts.filter (fun t => t.priority == p)
    | none => ts
  let ts :=
    match q.search with
    | some str => if str = "" then ts else ts.filter (fun t => ilikeMatch t.title str)
    | none => ts
  sortByCreatedDesc ts

/-- Result of `GET /api/tasks`. -/
structure ListOut where
  status : Nat
  body : Option (List TaskDict)
  cache : Cache
deriving Repr, DecidableEq

/-- `get_tasks` handler (`routes.py`).  `storeOk` models whether the
store read succeeds; a failure raises into the outer handler and yields
500.  On success the result list is opportunistically cached for 30
seconds under `tasks:{query_string}` (failure caught and logged) and the
store-backed list is returned. -/
def get_tasks (c : Cache) (s : Store) (storeOk : Bool) (q : ListQuery) : ListOut :=
  if storeOk then
    let ds := (listResult s q).map Task.to_dict
    ⟨200, some ds, c.set ("tasks:" ++ q.raw) 30 (.many ds)⟩
  else ⟨500, none, c⟩

/-- One payload of `POST /api/tasks/batch`.  `priority` and `due_date`
can be present in the JSON but are never read by the handler. -/
structure BatchItem where
  title : Option String
  description : Option String
  completed : Option Bool
  priority : Option Int
  due_date : Option String
deriving Repr, DecidableEq

/-- One entry of the `errors` list of the batch response. -/
structure BatchErr where
  index : Nat
  error : String
deriving Repr, DecidableEq

/-- The `for idx, task_data in enumerate(tasks_data)` loop: an item
without a title is recorded as an error under its index and skipped; a
titled item becomes a row (title/description stripped, completed
defaulted to false, column defaults priority 1 and no due date) and is
staged for the commit.  Ids are assigned in insertion order at commit. -/
def processBatch (now : Instant) (idx nid : Nat) :
    List BatchItem → List Task × List BatchErr
  | [] => ([], [])
  | it :: rest =>
    match it.title with
    | none =>
      let (ts, es) := processBatch now (idx + 1) nid rest
      (ts, ⟨idx, "Title required"⟩ :: es)
    | some rawTitle =>
      let tk : Task :=
        { id := nid
          title := pyStrip rawTitle
          description := pyStrip (it.description.getD "")
          completed := it.completed.getD false
          priority := 1
          due_date := none
          created_at := now
          updated_at := now
          completed_at := none }
      let (ts, es) := processBatch now (idx + 1) (nid + 1) rest
      (tk :: ts, es)

/-- Result of `POST /api/tasks/batch`. -/
structure BatchOut where
  status : Nat
  created : List TaskDict
  errors : List BatchErr
  total_created : Nat
  total_errors : Nat
  store : Store
  cache : Cache
deriving Repr, DecidableEq

/-- `batch_create_tasks` handler (`routes.py`): 400 when the body lacks a
`tasks` array; otherwise items are processed independently, all staged
rows are committed together, the list-cache namespace is invalidated
once, and the response carries the created dicts, the indexed errors and
both totals. -/
def batch_create_tasks (c : Cache) (s : Store)
    (items : Option (List BatchItem)) (now : Instant) : BatchOut :=
  match items with
  | none => ⟨400, [], [], 0, 0, s, c⟩
  | some its =>
    let (ts, es) := processBatch now 0 s.next_id its
    ⟨201, ts.map Task.to_dict, es, ts.length, es.length,
      { tasks := s.tasks ++ ts, next_id := s.next_id + ts.length },
      c.invalidateLists⟩

/-- Calendar day of an abstract instant, for `db.func.date(created_at)`. -/
def dayOf (i : Instant) : Nat := i / 86400

/-- The body of `GET /api/stats`. -/
structure StatsOut where
  total_tasks : Nat
  completed_tasks : Nat
  pending_tasks : Nat
  completion_rate : ℚ
  p1 : Nat
  p2 : Nat
  p3 : Nat
  tasks_created_today : Nat
deriving Repr, DecidableEq

/-- `get_stats` handler (`routes.py`): counts, pending difference,
completion rate guarded against division by zero, the priority breakdown
over the values 1, 2 and 3, and the count of tasks created on the
current UTC day. -/
def get_stats (s : Store) (now : Instant) : StatsOut :=
  let total := s.tasks.length
  let completed := (s.tasks.filter (fun t => t.completed)).length
  { total_tasks := total
    completed_tasks := completed
    pending_tasks := total - completed
    completion_rate :=
      if total > 0 then (completed : ℚ) / (total : ℚ) * 100 else 0
    p1 := (s.tasks.filter (fun t => t.priority == 1)).length
    p2 := (s.tasks.filter (fun t => t.priority == 2)).length
    p3 := (s.tasks.filter (fun t => t.priority == 3)).length
    tasks_created_today :=
      (s.tasks.filter (fun t => dayOf t.created_at == dayOf now)).length }

/-- The body and status of `GET /health`. -/
structure HealthOut where
  status_code : Nat
  database : String
  redis : String
deriving Repr, DecidableEq

/-- `health_check` handler (`routes.py`): the database probe flips the
status to unhealthy on failure; a configured Redis client is pinged and a
failed ping also flips the status to unhealthy, while an unconfigured
client is reported as `not_configured` and leaves the status alone.
Healthy maps to 200, unhealthy to 500. -/
def health_check (dbOk : Bool) (c : Cache) : HealthOut :=
  let dbPart : String × Bool :=
    if dbOk then ("connected", true) else ("disconnected", false)
  let redisPart : String × Bool :=
    if c.configured then
      if c.healthy then ("connected", dbPart.2) else ("disconnected", false)
    else ("not_configured", dbPart.2)
  ⟨if redisPart.2 then 200 else 500, dbPart.1, redisPart.1⟩

/-! Helper lemmas shared by several results. -/

/-- After `invalidateLists` on an operational cache, every surviving key
is outside the `tasks:` namespace. -/
lemma invalidateLists_clears (c : Cache) (hc : c.configured = true)
    (hh : c.healthy = true) :
    (c.invalidateLists).entries.all (fun e => !(strStarts e.key "tasks:")) = true := by
  rw [List.all_eq_true]
  intro e he
  rw [Cache.invalidateLists, hc, hh] at he
  simp only [Bool.and_self, if_true] at he
  exact (List.mem_filter.mp he).2

/-- `invalidateLists` never introduces a key: a miss stays a miss. -/
lemma lookup_invalidateLists_none (c : Cache) (k : String)
    (h : c.lookup k = none) : (c.invalidateLists).lookup k = none := by
  by_cases hc : (c.configured && c.healthy) = true
  · simp only [Cache.lookup, Cache.invalidateLists, hc, if_true] at h ⊢
    simp only [Option.map_eq_none', List.find?_eq_none] at h ⊢
    intro e he
    exact h e (List.mem_filter.mp he).1
  · rw [Cache.invalidateLists, if_neg hc]
    exact h

/-! Claim theorems. -/

/-- Claim C1: after every successful Create (201) against an operational
cache, no key in the list-cache namespace (keys starting with `tasks:`)
survives in the Cache Layer. -/
theorem create_invalidates_every_list_key (parseIso : String → Option Instant)
    (c : Cache) (s : Store) (d : CreateData) (now : Instant)
    (hc : c.configured = true) (hh : c.healthy = true)
    (h201 : (create_task parseIso c s d now).status = 201) :
    (create_task parseIso c s d now).cache.entries.all
      (fun e => !(strStarts e.key "tasks:")) = true := by
  revert h201
  unfold create_task
  split
  · intro h201; simp at h201
  · split
    · intro h201; simp at h201
    · split
      · intro h201; simp at h201
      · intro _; exact invalidateLists_clears c hc hh

/-- Claim C1 witness: creating a task over a cache holding a list entry
leaves no `tasks:` key behind. -/
theorem create_invalidates_every_list_key_witness :
    (create_task (fun _ => none) ⟨true, true, [⟨"tasks:b0", .many [], 30⟩]⟩
        ⟨[], 1⟩ ⟨some "X", none, none, none, none⟩ 0).cache.entries.all
      (fun e => !(strStarts e.key "tasks:")) = true :=
  create_invalidates_every_list_key (fun _ => none)
    ⟨true, true, [⟨"tasks:b0", .many [], 30⟩]⟩ ⟨[], 1⟩
    ⟨some "X", none, none, none, none⟩ 0 rfl rfl (by decide)

/-- Claim C2: Get first consults the cache key `task:{id}`; a hit returns
the cached value with 200 and no store read; a miss (including a failed
or absent cache) reads the store, a store hit populates the cache with a
60-second TTL and returns 200, a store miss returns 404. -/
theorem get_task_cache_aside (c : Cache) (s : Store) (i : Nat) :
    (∀ v, c.lookup ("task:" ++ toString i) = some v →
      get_task c s i = ⟨200, some v, c, false⟩) ∧
    (c.lookup ("task:" ++ toString i) = none →
      (∀ t, s.findTask i = some t →
        get_task c s i =
          ⟨200, some (.one t.to_dict),
            c.set ("task:" ++ toString i) 60 (.one t.to_dict), true⟩) ∧
      (s.findTask i = none → get_task c s i = ⟨404, none, c, true⟩)) := by
  refine ⟨fun v hv => ?_, fun h0 => ⟨fun t ht => ?_, fun hn => ?_⟩⟩
  · simp [get_task, hv]
  · simp [get_task, h0, ht]
  · simp [get_task, h0, hn]

/-- Claim C2 witness: a concrete cache hit is returned as cached, without
reading the store. -/
theorem get_task_cache_aside_witness :
    get_task ⟨true, true, [⟨"task:1", .one ⟨1, "t", "", false, 1, none, some 0, some 0, none⟩, 60⟩]⟩
        ⟨[], 2⟩ 1
      = ⟨200, some (.one ⟨1, "t", "", false, 1, none, some 0, some 0, none⟩),
          ⟨true, true, [⟨"task:1", .one ⟨1, "t", "", false, 1, none, some 0, some 0, none⟩, 60⟩]⟩,
          false⟩ :=
  (get_task_cache_aside
      ⟨true, true, [⟨"task:1", .one ⟨1, "t", "", false, 1, none, some 0, some 0, none⟩, 60⟩]⟩
      ⟨[], 2⟩ 1).1
    (.one ⟨1, "t", "", false, 1, none, some 0, some 0, none⟩) (by decide)

/-- Claim C3: a Create whose `due_date` string is non-empty has its `Z`
zone suffix rewritten to `+00:00` before parsing; the stored `due_date`
is exactly the parse result of the rewritten string, and a failed parse
logs a warning, leaves `due_date` unset, and still creates the task with
201. -/
theorem create_due_date_lenient (parseIso : String → Option Instant)
    (c : Cache) (s : Store) (d : CreateData) (now : Instant)
    (rawTitle ds : String) (ht : d.title = some rawTitle)
    (htne : ¬ pyStrip rawTitle = "") (hd : d.due_date = some ds)
    (hne : ¬ ds = "") :
    (create_task parseIso c s d now).status = 201 ∧
    (create_task parseIso c s d now).body.map TaskDict.due_date =
      some (parseIso (replaceZ ds)) ∧
    (parseIso (replaceZ ds) = none →
      (create_task parseIso c s d now).logs = ["Invalid due_date format"]) := by
  have hemp : d.isEmptyData = false := by
    simp [CreateData.isEmptyData, hd]
  rcases hp : parseIso (replaceZ ds) with _ | inst
  · simp [create_task, hemp, ht, htne, hd, hne, hp, Task.to_dict]
  · simp [create_task, hemp, ht, htne, hd, hne, hp, Task.to_dict]

/-- Claim C3 witness: an unparsable due date logs the warning, leaves the
date unset and still yields 201. -/
theorem create_due_date_lenient_witness :
    (create_task (fun _ => none) ⟨true, true, []⟩ ⟨[], 1⟩
        ⟨some "X", none, none, none, some "not-a-dateZ"⟩ 0).status = 201 ∧
    (create_task (fun _ => none) ⟨true, true, []⟩ ⟨[], 1⟩
        ⟨some "X", none, none, none, some "not-a-dateZ"⟩ 0).body.map TaskDict.due_date =
      some none ∧
    (create_task (fun _ => none) ⟨true, true, []⟩ ⟨[], 1⟩
        ⟨some "X", none, none, none, some "not-a-dateZ"⟩ 0).logs =
      ["Invalid due_date format"] := by
  have h := create_due_date_lenient (fun _ => none) ⟨true, true, []⟩ ⟨[], 1⟩
    ⟨some "X", none, none, none, some "not-a-dateZ"⟩ 0 "X" "not-a-dateZ"
    rfl (by decide) rfl (by decide)
  exact ⟨h.1, h.2.1, h.2.2 rfl⟩

/-- The `completed` transition guard of `applyUpdate`: `completed_at` is
stamped on a differing true value, cleared on a differing false value,
and untouched when the submitted value equals the stored one, whatever
the other fields do. -/
lemma applyUpdate_completed_at (parseIso : String → Option Instant)
    (t : Task) (d : UpdateData) (now : Instant) (b : Bool)
    (hb : d.completed = some b) :
    (applyUpdate parseIso t d now).completed_at =
      if b = t.completed then t.completed_at
      else if b then some now else none := by
  rcases d with ⟨dt, dd, dc, dp, ddd⟩
  simp only at hb
  subst hb
  by_cases hbc : b = t.completed <;>
    cases dt <;> cases dd <;> cases dp <;> rcases ddd with _ | (_ | ds) <;>
      simp [applyUpdate, hbc] <;>
      (try split_ifs) <;>
      (try cases parseIso (replaceZ ds)) <;>
      simp_all

/-- Claim C4: updating an existing task with a `completed` field stamps
`completed_at` with the current instant on a false-to-true transition,
clears it on a true-to-false transition, and leaves it unchanged when the
submitted value equals the stored one; the update succeeds with 200. -/
theorem update_completed_transition (parseIso : String → Option Instant)
    (c : Cache) (s : Store) (i : Nat) (d : UpdateData) (t : Task) (b : Bool)
    (now : Instant) (hfind : s.findTask i = some t)
    (hb : d.completed = some b) :
    (update_task parseIso c s i d now).status = 200 ∧
    (update_task parseIso c s i d now).body.map TaskDict.completed_at =
      some (if b = t.completed then t.completed_at
            else if b then some now else none) := by
  have hemp : d.isEmptyData = false := by
    simp [UpdateData.isEmptyData, hb]
  unfold update_task
  rw [hfind]
  simp [hemp, Task.to_dict, applyUpdate_completed_at parseIso t d now b hb]

/-- Claim C4 witness: completing a pending task stamps `completed_at`
with the request instant. -/
theorem update_completed_transition_witness :
    (update_task (fun _ => none) ⟨true, true, []⟩
        ⟨[⟨3, "T", "", false, 1, none, 0, 0, none⟩], 4⟩ 3
        ⟨none, none, some true, none, none⟩ 9).status = 200 ∧
    (update_task (fun _ => none) ⟨true, true, []⟩
        ⟨[⟨3, "T", "", false, 1, none, 0, 0, none⟩], 4⟩ 3
        ⟨none, none, some true, none, none⟩ 9).body.map TaskDict.completed_at =
      some (some 9) := by
  have h := update_completed_transition (fun _ => none) ⟨true, true, []⟩
    ⟨[⟨3, "T", "", false, 1, none, 0, 0, none⟩], 4⟩ 3
    ⟨none, none, some true, none, none⟩ ⟨3, "T", "", false, 1, none, 0, 0, none⟩
    true 9 (by decide) rfl
  exact ⟨h.1, by rw [h.2]; decide⟩

/-- Claim C5: the List outcome is independent of the Cache Layer: any two
cache states (including failed or absent ones) give the same status and
body, the body is the store-backed result exactly when the store read
succeeds, success holds iff the store read succeeds, and on success the
cache write of the result is attempted with a 30-second TTL. -/
theorem list_cache_failure_never_changes_outcome (c₁ c₂ : Cache) (s : Store)
    (storeOk : Bool) (q : ListQuery) :
    (get_tasks c₁ s storeOk q).status = (get_tasks c₂ s storeOk q).status ∧
    (get_tasks c₁ s storeOk q).body =
      (if storeOk then some ((listResult s q).map Task.to_dict) else none) ∧
    ((get_tasks c₁ s storeOk q).status = 200 ↔ storeOk = true) ∧
    (get_tasks c₁ s storeOk q).cache =
      (if storeOk then
        c₁.set ("tasks:" ++ q.raw) 30 (.many ((listResult s q).map Task.to_dict))
      else c₁) := by
  cases storeOk <;> simp [get_tasks]

/-- Claim C9 counterexample: with the store reachable and the cache
configured but unreachable, the health endpoint returns 500, so cache
unavailability alone does flip the liveness response. -/
theorem health_cex_cache_configured_down :
    (health_check true ⟨true, false, []⟩).status_code = 500 := by decide

/-- Claim C9 as amended: the health endpoint returns 200 exactly when the
store is reachable and the cache is unconfigured or reachable; an
unconfigured cache alone never causes 500, but a configured unreachable
one does. -/
theorem health_status_characterization (dbOk : Bool) (c : Cache) :
    (health_check dbOk c).status_code =
      (if dbOk && (!c.configured || c.healthy) then 200 else 500) := by
  rcases c with ⟨cf, hl, es⟩
  cases dbOk <;> cases cf <;> cases hl <;> rfl

/-- The three per-priority counts add up to the count of tasks whose
priority lies in the set 1, 2, 3. -/
lemma count_priority_split (ts : List Task) :
    (ts.filter (fun t => t.priority == 1)).length
      + (ts.filter (fun t => t.priority == 2)).length
      + (ts.filter (fun t => t.priority == 3)).length
    = (ts.filter
        (fun t => t.priority == 1 || t.priority == 2 || t.priority == 3)).length := by
  induction ts with
  | nil => rfl
  | cons h tl ih =>
    by_cases h1 : h.priority = 1
    · simp [List.filter_cons, h1]; omega
    · by_cases h2 : h.priority = 2
      · simp [List.filter_cons, h2]; omega
      · by_cases h3 : h.priority = 3
        · simp [List.filter_cons, h3]; omega
        · simp [List.filter_cons, h1, h2, h3]; omega

/-- Claim C6 counterexample: a store holding one task with the
out-of-range priority 4 (which no validation rejects) has a priority
breakdown summing to 0, not to the task count 1. -/
theorem stats_priority_breakdown_cex :
    ¬ ((get_stats ⟨[⟨1, "A", "", false, 4, none, 0, 0, none⟩], 2⟩ 0).p1
        + (get_stats ⟨[⟨1, "A", "", false, 4, none, 0, 0, none⟩], 2⟩ 0).p2
        + (get_stats ⟨[⟨1, "A", "", false, 4, none, 0, 0, none⟩], 2⟩ 0).p3
      = (get_stats ⟨[⟨1, "A", "", false, 4, none, 0, 0, none⟩], 2⟩ 0).total_tasks) := by
  decide

/-- Claim C6 as amended: Stats returns pending = N − C and
completion_rate = C/N·100 (exactly 0 when N = 0), and the priority
breakdown over the values 1, 2, 3 sums to the number of tasks whose
priority lies in that set — hence to N whenever every stored priority is
in range, but not for stores holding out-of-range priorities. -/
theorem stats_correct_amended (s : Store) (now : Instant) :
    (get_stats s now).total_tasks = s.tasks.length ∧
    (get_stats s now).completed_tasks =
      (s.tasks.filter (fun t => t.completed)).length ∧
    (get_stats s now).pending_tasks =
      (get_stats s now).total_tasks - (get_stats s now).completed_tasks ∧
    (get_stats s now).completion_rate =
      (if (get_stats s now).total_tasks = 0 then 0
       else ((get_stats s now).completed_tasks : ℚ)
              / ((get_stats s now).total_tasks : ℚ) * 100) ∧
    (get_stats s now).p1 + (get_stats s now).p2 + (get_stats s now).p3 =
      (s.tasks.filter
        (fun t => t.priority == 1 || t.priority == 2 || t.priority == 3)).length ∧
    ((∀ t ∈ s.tasks, t.priority = 1 ∨ t.priority = 2 ∨ t.priority = 3) →
      (get_stats s now).p1 + (get_stats s now).p2 + (get_stats s now).p3 =
        (get_stats s now).total_tasks) := by
  refine ⟨rfl, rfl, rfl, ?_, count_priority_split s.tasks, fun hall => ?_⟩
  · simp only [get_stats]
    rcases Nat.eq_zero_or_pos s.tasks.length with h | h
    · simp [h]
    · rw [if_pos h, if_neg (by omega)]
  · have hfe : s.tasks.filter
        (fun t => t.priority == 1 || t.priority == 2 || t.priority == 3) = s.tasks := by
      rw [List.filter_eq_self]
      intro a ha
      rcases hall a ha with h | h | h <;> simp [h]
    simp only [get_stats]
    rw [count_priority_split s.tasks, hfe]

/-- Claim C6 witness: for an in-range store the amended priority
breakdown does sum to the task count. -/
theorem stats_correct_amended_witness :
    (get_stats ⟨[⟨1, "A", "", true, 2, none, 0, 0, none⟩], 2⟩ 0).p1
      + (get_stats ⟨[⟨1, "A", "", true, 2, none, 0, 0, none⟩], 2⟩ 0).p2
      + (get_stats ⟨[⟨1, "A", "", true, 2, none, 0, 0, none⟩], 2⟩ 0).p3
      = (get_stats ⟨[⟨1, "A", "", true, 2, none, 0, 0, none⟩], 2⟩ 0).total_tasks :=
  (stats_correct_amended ⟨[⟨1, "A", "", true, 2, none, 0, 0, none⟩], 2⟩ 0).2.2.2.2.2
    (by decide)

/-- Every batch item is either staged or recorded as an error: the two
output lists of the batch loop partition the input. -/
lemma processBatch_lengths (now : Instant) :
    ∀ (its : List BatchItem) (idx nid : Nat),
      (processBatch now idx nid its).1.length
        + (processBatch now idx nid its).2.length = its.length := by
  intro its
  induction its with
  | nil => intro idx nid; rfl
  | cons it rest ih =>
    intro idx nid
    cases h : it.title with
    | none =>
      rcases hp : processBatch now (idx + 1) nid rest with ⟨ts, es⟩
      have hih := ih (idx + 1) nid
      rw [hp] at hih
      simp only [processBatch, h, hp, List.length_cons]
      simp at hih ⊢
      omega
    | some rt =>
      rcases hp : processBatch now (idx + 1) (nid + 1) rest with ⟨ts, es⟩
      have hih := ih (idx + 1) (nid + 1)
      rw [hp] at hih
      simp only [processBatch, h, hp, List.length_cons]
      simp at hih ⊢
      omega

/-- The error list of the batch loop is exactly the title-less items,
keyed by their original (enumeration) indices, each with the fixed
`Title required` message. -/
lemma processBatch_errors (now : Instant) :
    ∀ (its : List BatchItem) (idx nid : Nat),
      (processBatch now idx nid its).2 =
        ((List.enumFrom idx its).filter (fun p => p.2.title.isNone)).map
          (fun p => (⟨p.1, "Title required"⟩ : BatchErr)) := by
  intro its
  induction its with
  | nil => intro idx nid; rfl
  | cons it rest ih =>
    intro idx nid
    cases h : it.title with
    | none =>
      rcases hp : processBatch now (idx + 1) nid rest with ⟨ts, es⟩
      have hih := ih (idx + 1) nid
      rw [hp] at hih
      simp [processBatch, h, hp, List.enumFrom_cons, List.filter_cons, hih]
    | some rt =>
      rcases hp : processBatch now (idx + 1) (nid + 1) rest with ⟨ts, es⟩
      have hih := ih (idx + 1) (nid + 1)
      rw [hp] at hih
      simp [processBatch, h, hp, List.enumFrom_cons, List.filter_cons, hih]

/-- Claim C7: batch creation processes items independently: the request
succeeds with 201, the reported totals equal the lengths of the created
and error lists, created and errors together account for every input
item, the error list records exactly the title-less items under their
original indices without aborting the batch, all staged items are
committed, and the spec example (titles A, missing, B) yields two
creations and one error at index 1. -/
theorem batch_partial_failure (c : Cache) (s : Store)
    (items : List BatchItem) (now : Instant) :
    (batch_create_tasks c s (some items) now).status = 201 ∧
    (batch_create_tasks c s (some items) now).total_created =
      (batch_create_tasks c s (some items) now).created.length ∧
    (batch_create_tasks c s (some items) now).total_errors =
      (batch_create_tasks c s (some items) now).errors.length ∧
    (batch_create_tasks c s (some items) now).total_created
      + (batch_create_tasks c s (some items) now).total_errors = items.length ∧
    (batch_create_tasks c s (some items) now).errors =
      ((List.enum items).filter (fun p => p.2.title.isNone)).map
        (fun p => (⟨p.1, "Title required"⟩ : BatchErr)) ∧
    (batch_create_tasks c s (some items) now).store.tasks.length =
      s.tasks.length + (batch_create_tasks c s (some items) now).total_created ∧
    (batch_create_tasks ⟨true, true, []⟩ ⟨[], 1⟩
        (some [⟨some "A", none, none, none, none⟩,
               ⟨none, some "no title", none, none, none⟩,
               ⟨some "B", none, none, none, none⟩]) 0).total_created = 2 ∧
    (batch_create_tasks ⟨true, true, []⟩ ⟨[], 1⟩
        (some [⟨some "A", none, none, none, none⟩,
               ⟨none, some "no title", none, none, none⟩,
               ⟨some "B", none, none, none, none⟩]) 0).total_errors = 1 ∧
    (batch_create_tasks ⟨true, true, []⟩ ⟨[], 1⟩
        (some [⟨some "A", none, none, none, none⟩,
               ⟨none, some "no title", none, none, none⟩,
               ⟨some "B", none, none, none, none⟩]) 0).errors =
      [⟨1, "Title required"⟩] := by
  rcases hp : processBatch now 0 s.next_id items with ⟨ts, es⟩
  have hlen := processBatch_lengths now items 0 s.next_id
  have herr := processBatch_errors now items 0 s.next_id
  rw [hp] at hlen herr
  simp only at hlen herr
  have herrlen : es.length =
      ((List.enumFrom 0 items).filter (fun p => p.2.title.isNone)).length := by
    rw [herr, List.length_map]
  refine ⟨rfl, ?_, ?_, ?_, ?_, ?_, by decide, by decide, by decide⟩ <;>
    (simp [batch_create_tasks, hp, List.enum, herr]; try omega)

/-- Creating with only a title yields the 201 response, the appended row
with every default applied, the bumped id counter, the invalidated list
cache, and no warnings. -/
lemma create_task_title_only (parseIso : String → Option Instant) (c : Cache)
    (s : Store) (rawTitle : String) (now : Instant)
    (htne : ¬ pyStrip rawTitle = "") :
    create_task parseIso c s ⟨some rawTitle, none, none, none, none⟩ now =
      ⟨201,
        some ⟨s.next_id, pyStrip rawTitle, "", false, 1, none, some now, some now, none⟩,
        ⟨s.tasks ++ [⟨s.next_id, pyStrip rawTitle, "", false, 1, none, now, now, none⟩],
          s.next_id + 1⟩,
        c.invalidateLists, []⟩ := by
  have h0 : pyStrip "" = "" := rfl
  simp [create_task, CreateData.isEmptyData, htne, Task.to_dict, h0]

/-- Claim C8: Create(title only) then Get(id) round-trips: the create
succeeds and the subsequent Get returns 200 with the stripped title, not
completed, priority 1, no `completed_at`, and `created_at` equal to
`updated_at` (both are the creation instant). -/
theorem create_then_get_round_trip (parseIso : String → Option Instant)
    (c : Cache) (s : Store) (rawTitle : String) (now : Instant)
    (htne : ¬ pyStrip rawTitle = "")
    (hfresh : ∀ t ∈ s.tasks, t.id ≠ s.next_id)
    (hmiss : c.lookup ("task:" ++ toString s.next_id) = none) :
    (create_task parseIso c s ⟨some rawTitle, none, none, none, none⟩ now).status
      = 201 ∧
    (get_task (create_task parseIso c s ⟨some rawTitle, none, none, none, none⟩ now).cache
        (create_task parseIso c s ⟨some rawTitle, none, none, none, none⟩ now).store
        s.next_id).status = 200 ∧
    (get_task (create_task parseIso c s ⟨some rawTitle, none, none, none, none⟩ now).cache
        (create_task parseIso c s ⟨some rawTitle, none, none, none, none⟩ now).store
        s.next_id).body =
      some (.one ⟨s.next_id, pyStrip rawTitle, "", false, 1, none, some now, some now, none⟩) := by
  rw [create_task_title_only parseIso c s rawTitle now htne]
  have hkey := lookup_invalidateLists_none c ("task:" ++ toString s.next_id) hmiss
  have hfind : List.find? (fun t => t.id == s.next_id)
      (s.tasks ++ [⟨s.next_id, pyStrip rawTitle, "", false, 1, none, now, now, none⟩])
      = some ⟨s.next_id, pyStrip rawTitle, "", false, 1, none, now, now, none⟩ := by
    rw [List.find?_append]
    have h1 : List.find? (fun t => t.id == s.next_id) s.tasks = none := by
      rw [List.find?_eq_none]
      intro x hx
      simp [hfresh x hx]
    rw [h1]
    simp
  refine ⟨rfl, ?_, ?_⟩ <;> simp [get_task, Store.findTask, hkey, hfind, Task.to_dict]

/-- Claim C8 witness: a concrete title-only create followed by a get
returns the defaulted representation with equal timestamps. -/
theorem create_then_get_round_trip_witness :
    (get_task (create_task (fun _ => none) ⟨true, true, []⟩ ⟨[], 1⟩
          ⟨some "X", none, none, none, none⟩ 7).cache
        (create_task (fun _ => none) ⟨true, true, []⟩ ⟨[], 1⟩
          ⟨some "X", none, none, none, none⟩ 7).store 1).body =
      some (.one ⟨1, "X", "", false, 1, none, some 7, some 7, none⟩) := by
  have h := create_then_get_round_trip (fun _ => none) ⟨true, true, []⟩ ⟨[], 1⟩ "X" 7
    (by decide) (by decide) (by decide)
  exact h.2.2

/-- The fields of a batch payload the handler never reads. -/
def scrubItem (it : BatchItem) : BatchItem :=
  { it with priority := none, due_date := none }

/-- Erasing `priority` and `due_date` from every batch payload does not
change the batch loop at all. -/
lemma processBatch_scrub (now : Instant) :
    ∀ (its : List BatchItem) (idx nid : Nat),
      processBatch now idx nid (its.map scrubItem) = processBatch now idx nid its := by
  intro its
  induction its with
  | nil => intro idx nid; rfl
  | cons it rest ih =>
    intro idx nid
    cases h : it.title with
    | none => simp [processBatch, scrubItem, h, ih (idx + 1) nid]
    | some rt => simp [processBatch, scrubItem, h, ih (idx + 1) (nid + 1)]

/-- Every row staged by the batch loop carries the column defaults:
priority 1 and no due date. -/
lemma processBatch_created_defaults (now : Instant) :
    ∀ (its : List BatchItem) (idx nid : Nat),
      ((processBatch now idx nid its).1.all
        (fun tk => tk.priority == 1 && tk.due_date.isNone)) = true := by
  intro its
  induction its with
  | nil => intro idx nid; rfl
  | cons it rest ih =>
    intro idx nid
    cases h : it.title with
    | none =>
      rcases hp : processBatch now (idx + 1) nid rest with ⟨ts, es⟩
      have hih := ih (idx + 1) nid
      rw [hp] at hih
      simp only at hih
      simp [processBatch, h, hp, hih]
    | some rt =>
      rcases hp : processBatch now (idx + 1) (nid + 1) rest with ⟨ts, es⟩
      have hih := ih (idx + 1) (nid + 1)
      rw [hp] at hih
      simp only at hih
      simp [processBatch, h, hp, hih]

/-- Claim C10: batch creation reads only title, description and
completed: erasing `priority` and `due_date` from every payload yields
the identical response and state, every batch-created task has priority 1
and no due date, while single Create honors a submitted priority and a
parsable submitted due date. -/
theorem batch_ignores_priority_and_due_date (parseIso : String → Option Instant)
    (c : Cache) (s : Store) (items : List BatchItem) (now : Instant) :
    batch_create_tasks c s (some (items.map scrubItem)) now =
      batch_create_tasks c s (some items) now ∧
    (batch_create_tasks c s (some items) now).created.all
      (fun dd => dd.priority == 1 && dd.due_date.isNone) = true ∧
    (∀ (p : Int) (rawTitle : String), ¬ pyStrip rawTitle = "" →
      (create_task parseIso c s ⟨some rawTitle, none, none, some p, none⟩ now).body.map
        TaskDict.priority = some p) ∧
    (∀ (ds rawTitle : String) (inst : Instant), ¬ pyStrip rawTitle = "" →
      ¬ ds = "" → parseIso (replaceZ ds) = some inst →
      (create_task parseIso c s ⟨some rawTitle, none, none, none, some ds⟩ now).body.map
        TaskDict.due_date = some (some inst)) := by
  refine ⟨?_, ?_, fun p rawTitle htne => ?_, fun ds rawTitle inst htne hne hp => ?_⟩
  · simp [batch_create_tasks, processBatch_scrub now items 0 s.next_id]
  · rcases hp : processBatch now 0 s.next_id items with ⟨ts, es⟩
    have hd := processBatch_created_defaults now items 0 s.next_id
    rw [hp] at hd
    simp only at hd
    rw [List.all_eq_true] at hd
    simp [batch_create_tasks, hp, List.all_map, Function.comp, Task.to_dict]
    intro a ha
    have hh := hd a ha
    simp at hh
    exact hh
  · simp [create_task, CreateData.isEmptyData, htne, Task.to_dict]
  · simp [create_task, CreateData.isEmptyData, htne, hne, hp, Task.to_dict]

/-- Claim C10 witness: single Create honors priority 3 and a `Z`-suffixed
due date that parses after normalization. -/
theorem batch_ignores_priority_and_due_date_witness :
    (create_task (fun str => if str = "2024-01-02T03:04:05+00:00" then some 42 else none)
        ⟨true, true, []⟩ ⟨[], 1⟩ ⟨some "X", none, none, some 3, none⟩ 0).body.map
      TaskDict.priority = some 3 ∧
    (create_task (fun str => if str = "2024-01-02T03:04:05+00:00" then some 42 else none)
        ⟨true, true, []⟩ ⟨[], 1⟩
        ⟨some "X", none, none, none, some "2024-01-02T03:04:05Z"⟩ 0).body.map
      TaskDict.due_date = some (some 42) := by
  have h := batch_ignores_priority_and_due_date
    (fun str => if str = "2024-01-02T03:04:05+00:00" then some 42 else none)
    ⟨true, true, []⟩ ⟨[], 1⟩ [] 0
  exact ⟨h.2.2.1 3 "X" (by decide),
    h.2.2.2 "2024-01-02T03:04:05Z" "X" 42 (by decide) (by decide) (by decide)⟩

end TaskForge
